import Mathlib

/-!
# Verification of the OVOS weather skill (`src/__init__.py`)

Shallow embedding of the intent-to-report resolution pipeline of the
`WeatherSkill` class.  Pure decision logic (timeframe resolution, day-count
extraction, error dispatch) is translated to Lean functions; the skill's
observable behaviour (spoken dialogs, message-bus emissions, screen updates)
is modelled as an ordered list of `Effect`s produced per request; the mutable
skill state touched by `_get_weather_config` is threaded explicitly.

The helper module `weather_helpers` imported by `src/__init__.py` is not part
of the sources; every definition standing in for it carries a doc comment
starting with `Modelled from the spec:` and is faithful to the spec's words.
-/

namespace WeatherSkill

/-- Timeframe of a weather query, as exported by `weather_helpers`
(`CURRENT` is the default, `HOURLY` and `DAILY` are imported at the top of
`src/__init__.py`; the weekly aggregate is handled by its own dialog type). -/
inductive Timeframe
  | current
  | hourly
  | daily
  deriving DecidableEq, Repr

/-- Modelled from the spec: `WeatherIntent` (defined in `weather_helpers`,
not under `src/`) initializes the query descriptor's timeframe to the
default `current` ("timeframe (current | hourly | daily | weekly, default
current)"). -/
def initialTimeframe : Timeframe := Timeframe.current

/-- The timeframe-resolution chain of `_get_intent_data`
(`src/__init__.py` lines 961-967): the four `voc_match` outcomes on the
utterance are taken as booleans (the vocabulary matcher is part of the OVOS
framework, outside this repository).  Mirrors

```
if self.voc_match(intent_data.utterance, "relative-time"):
    intent_data.timeframe = HOURLY
elif self.voc_match(intent_data.utterance, "later"):
    intent_data.timeframe = HOURLY
elif self.voc_match(intent_data.utterance, "relative-day"):
    if not self.voc_match(intent_data.utterance, "today"):
        intent_data.timeframe = DAILY
```

applied to an intent whose timeframe starts at `tf`. -/
def resolveTimeframe (relativeTime later relativeDay today : Bool)
    (tf : Timeframe) : Timeframe :=
  if relativeTime then Timeframe.hourly
  else if later then Timeframe.hourly
  else if relativeDay then
    (if !today then Timeframe.daily else tf)
  else tf

/-- The timeframe the spec's resolution-order sentence describes, written
from the spec's words for comparison with `resolveTimeframe`:
relative-time → hourly; else "later" → hourly; else relative-day and not
"today" → daily; otherwise current. -/
def specTimeframe (relativeTime later relativeDay today : Bool) : Timeframe :=
  if relativeTime then Timeframe.hourly
  else if later then Timeframe.hourly
  else if relativeDay && !today then Timeframe.daily
  else Timeframe.current

/-- Day-count extraction of `handle_number_days_forecast`
(`src/__init__.py` lines 124-129): "couple" vocabulary → 2 days, else "few"
vocabulary → 3 days, else the number extracted from the utterance by
`lingua_franca.parse.extract_number` (external parser, taken as an input). -/
def numberDaysForecastDays (coupleMatch fewMatch : Bool)
    (extractedNumber : Int) : Int :=
  if coupleMatch then 2
  else if fewMatch then 3
  else extractedNumber

/-- One observable action of the skill during a request: a spoken dialog
(`speak_dialog`, with its `wait` flag — `_speak_weather` always passes
`wait=True`, blocking until speech finishes), a message-bus emission
(`self.bus.emit`), or a GUI/enclosure display update. -/
inductive Effect
  | speakDialog (name : String) (wait : Bool)
  | emitBus (msgType : String)
  | showDisplay (page : String)
  deriving DecidableEq, Repr

/-- A weather snapshot.  Of the fields the provider returns (timestamp,
temperatures, wind, humidity, …) only the condition category and a
temperature are consumed by the claims under verification. -/
structure Weather where
  category : String
  temperature : Int
  deriving DecidableEq, Repr

instance : Inhabited Weather := ⟨⟨"", 0⟩⟩

/-- The multi-scale report returned by `get_report`: current snapshot plus
hourly and daily snapshot sequences. -/
structure WeatherReport where
  current : Weather
  hourly : List Weather
  daily : List Weather
  deriving DecidableEq, Repr

/-- Outcome of the provider fetch `get_report(intent_data.config)` as
distinguished by the exception handlers of `_get_weather`
(`src/__init__.py` lines 1001-1015): success, `HTTPError` with a status
code, `LocationNotFoundError`, or any other exception. -/
inductive FetchResult
  | ok (report : WeatherReport)
  | httpError (statusCode : Nat)
  | locationNotFound
  | otherError
  deriving DecidableEq, Repr

/-- `_handle_api_error` (`src/__init__.py` lines 1019-1028): status code 401
emits the `mycroft.not.paired` re-pairing message on the bus; any other
status speaks the generic `cant-get-forecast` fallback. -/
def handleApiError (statusCode : Nat) : List Effect :=
  if statusCode = 401 then [Effect.emitBus "mycroft.not.paired"]
  else [Effect.speakDialog "cant-get-forecast" false]

/-- `_get_weather` (`src/__init__.py` lines 992-1017) with a non-`None`
intent: returns the fetched report and the effects of its exception
handlers — `HTTPError` → `_handle_api_error`; `LocationNotFoundError` →
speak `location-not-found`; any other exception → speak
`cant-get-forecast`.  On failure `weather` stays `None`. -/
def getWeather (fetch : FetchResult) : Option WeatherReport × List Effect :=
  match fetch with
  | FetchResult.ok report => (some report, [])
  | FetchResult.httpError statusCode => (none, handleApiError statusCode)
  | FetchResult.locationNotFound =>
      (none, [Effect.speakDialog "location-not-found" false])
  | FetchResult.otherError =>
      (none, [Effect.speakDialog "cant-get-forecast" false])

/-- Modelled from the spec: `WeatherReport.get_forecast_for_multiple_days`
(defined in `weather_helpers`, not under `src/`): "N clamped to the
available 7-day window; if N exceeds what the provider returned" the call
fails (its caller catches `IndexError`); otherwise it yields the first N
daily snapshots. -/
def getForecastForMultipleDays (daily : List Weather) (days : Nat) :
    Except Unit (List Weather) :=
  if days > 7 then Except.error ()
  else Except.ok (daily.take days)

/-- Modelled from the spec: `WeatherReport.get_forecast_for_hour`
(defined in `weather_helpers`, not under `src/`): "if the requested
relative-hour offset exceeds the 48-hour window, fails with
`HourOutOfRange`" (its caller catches `IndexError`); otherwise it yields
the hourly snapshot at the requested offset. -/
def getForecastForHour (hourly : List Weather) (hourOffset : Nat) :
    Except Unit Weather :=
  if hourOffset > 48 then Except.error ()
  else Except.ok (hourly.getD hourOffset default)

/-- `_report_multi_day_forecast` (`src/__init__.py` lines 746-763), given a
successfully fetched report: try the N-day forecast; on `IndexError` speak
the `seven-days-available` notice and fall back to the 7-day forecast; then
build one `daily-weather` dialog per forecast day (`_build_forecast_dialogs`,
dialog template name modelled from the spec's Dialog Builder), display the
multi-day screen, and speak each dialog in order via `_speak_weather`
(`wait=True`). -/
def reportMultiDayForecast (report : WeatherReport) (days : Nat) :
    List Effect :=
  let step :=
    match getForecastForMultipleDays report.daily days with
    | Except.error _ =>
        ([Effect.speakDialog "seven-days-available" false],
          (getForecastForMultipleDays report.daily 7).toOption.getD [])
    | Except.ok forecast => ([], forecast)
  step.1 ++ [Effect.showDisplay "DailyForecast.qml"] ++
    step.2.map (fun _ => Effect.speakDialog "daily-weather" true)

/-- `_report_one_hour_weather` (`src/__init__.py` lines 662-678), given a
successfully fetched report: on `IndexError` from the hour lookup, speak
the `forty-eight-hours-available` notice; otherwise build and speak the
hourly weather dialog (template name modelled from the spec's Dialog
Builder). -/
def reportOneHourWeather (report : WeatherReport) (hourOffset : Nat) :
    List Effect :=
  match getForecastForHour report.hourly hourOffset with
  | Except.error _ =>
      [Effect.speakDialog "forty-eight-hours-available" false]
  | Except.ok _ => [Effect.speakDialog "hourly-weather" true]

/-- Whether an effect is a spoken dialog. -/
def isSpeak : Effect → Bool
  | Effect.speakDialog _ _ => true
  | _ => false

/-- Whether an effect gives the user (or a bus listener) a visible signal
of what happened: a spoken dialog or a message-bus emission. -/
def isUserVisibleSignal : Effect → Bool
  | Effect.speakDialog _ _ => true
  | Effect.emitBus _ => true
  | Effect.showDisplay _ => false

/-- `_report_current_weather` (`src/__init__.py` lines 611-632) driven by
the outcome of the fetch: on success, display the current conditions
(`CurrentWeather.qml` when a GUI is connected, otherwise the enclosure's
weather display), speak the current-conditions dialog, then speak the
high/low-temperature dialog (both built by `CurrentDialog`; template names
modelled from the spec's Dialog Builder; `_speak_weather` passes
`wait=True` so each call blocks until the speech finishes), and finally on
a connected GUI show the hourly-forecast and four-day-forecast screens.
On a failed fetch only `_get_weather`'s own effects happen. -/
def reportCurrentWeather (guiConnected : Bool) (fetch : FetchResult) :
    List Effect :=
  match getWeather fetch with
  | (some _, effects) =>
      effects ++
      (if guiConnected then [Effect.showDisplay "CurrentWeather.qml"]
       else [Effect.showDisplay "enclosure-weather-display"]) ++
      [Effect.speakDialog "current-weather" true,
        Effect.speakDialog "current-weather-high-low" true] ++
      (if guiConnected then
        [Effect.showDisplay "HourlyForecast.qml",
          Effect.showDisplay "DailyForecast.qml"]
       else [])
  | (none, effects) => effects

/-- A weekly condition dialog as built by `_build_weekly_condition_dialogs`
via `WeeklyDialog(...).build_condition_dialog(condition=condition)`: it is
determined by the condition category it reports (template name modelled
from the spec's Dialog Builder). -/
structure WeeklyConditionDialog where
  name : String
  condition : String
  deriving DecidableEq, Repr

/-- Iteration order of the Python builtin `set(...)` used at
`src/__init__.py` line 827: a `set` yields each distinct element exactly
once, but in a hash-dependent order the language leaves unspecified (string
hashing is randomized per process), so the order is a parameter of the
model, constrained only to enumerate the distinct elements. -/
def IsSetIteration (order elems : List String) : Prop :=
  order.Nodup ∧ (∀ c ∈ order, c ∈ elems) ∧ (∀ c ∈ elems, c ∈ order)

/-- `_build_weekly_condition_dialogs` (`src/__init__.py` lines 816-833):
one dialog per condition category, iterating
`set([daily.condition.category for daily in forecast])` in the given set
order. -/
def buildWeeklyConditionDialogs (forecast : List Weather)
    (setOrder : List String) : List WeeklyConditionDialog :=
  setOrder.map (fun condition => ⟨"weekly-condition", condition⟩)

/-- Distinct elements of a list in order of first occurrence, skipping
elements already seen. -/
def dedupFirstAux : List String → List String → List String
  | _, [] => []
  | seen, c :: rest =>
      if c ∈ seen then dedupFirstAux seen rest
      else c :: dedupFirstAux (c :: seen) rest

/-- Distinct elements of a list in order of first occurrence. -/
def dedupFirst (l : List String) : List String := dedupFirstAux [] l

/-- The grouping order the spec's words describe: the distinct condition
categories of the forecast in order of their first occurrence in the daily
sequence.  Written from the spec for comparison with
`buildWeeklyConditionDialogs`. -/
def firstOccurrenceCategories (forecast : List Weather) : List String :=
  dedupFirst (forecast.map Weather.category)

/-- The flat mapping returned by `get_current_weather_homescreen`
(only the fields this verification consumes). -/
structure HomescreenReport where
  weatherTemp : Int
  conditionCategory : String
  deriving DecidableEq, Repr

/-- `get_current_weather_homescreen` (`src/__init__.py` lines 1038-1071):
on success it builds the flat report, emits the weather-response message on
the bus and returns the report; on any exception (a failing provider fetch
included — this path calls `get_report` directly, not `_get_weather`) the
`except Exception` clause only logs: no spoken dialog, no bus emission,
and `None` is returned. -/
def getCurrentWeatherHomescreen (fetch : FetchResult) :
    Option HomescreenReport × List Effect :=
  match fetch with
  | FetchResult.ok report =>
      (some ⟨report.current.temperature, report.current.category⟩,
        [Effect.emitBus "skill-ovos-weather.openvoiceos.weather.response"])
  | _ => (none, [])

/-- A failing step of an intent-handler request: either `_get_intent_data`
could not build the `WeatherIntent` (`ValueError` → speak
`cant-get-forecast`, the intent stays `None` and `_get_weather(None)`
returns `None` with no further effect), or the intent was built and the
provider fetch failed. -/
inductive RequestFailure
  | malformedQuery
  | fetchFailure (fetch : FetchResult)
  deriving DecidableEq, Repr

/-- The effects of a failing intent-handler request: the handlers guard
every report-building step behind `if weather is not None`, so on failure
the only effects are those of `_get_intent_data` / `_get_weather`. -/
def intentHandlerFailureEffects : RequestFailure → List Effect
  | RequestFailure.malformedQuery =>
      [Effect.speakDialog "cant-get-forecast" false]
  | RequestFailure.fetchFailure fetch => (getWeather fetch).2

/-- The fields of `self.config_core` read or written by
`_get_weather_config` (`src/__init__.py` lines 975-990). -/
structure CoreConfig where
  lang : Option String
  systemUnit : String
  latitude : Int
  longitude : Int
  deriving DecidableEq, Repr

/-- The mutable skill state `_get_weather_config` touches: the process-wide
core-configuration mapping `self.config_core`, the skill settings' unit
preference `self.settings.get("units")`, and the request language
`self.lang`. -/
structure SkillState where
  configCore : CoreConfig
  settingsUnits : Option String
  lang : String
  deriving DecidableEq, Repr

/-- Modelled from the spec: `WeatherConfig` (defined in `weather_helpers`,
not under `src/`) holds the merged effective configuration for the request
together with a per-request settings mapping — per the spec, the
"fahrenheit"/"celsius" override applied to it is for "this request only
(does not persist)". -/
structure WeatherConfig where
  config : CoreConfig
  settingsUnits : Option String
  deriving DecidableEq, Repr

/-- `_get_weather_config` (`src/__init__.py` lines 975-990) with the skill
state threaded explicitly.  `cfg = self.config_core` binds the stored
configuration mapping itself, not a copy, so each write to `cfg` (language
always; system unit when the skill settings hold a truthy, non-"default"
unit; coordinates when the message carries a truthy `lat_lon` pair) is a
write to the stored configuration.  Returns the updated state and the
constructed `WeatherConfig`. -/
def getWeatherConfig (state : SkillState) (msgLatLon : Option (Int × Int)) :
    SkillState × WeatherConfig :=
  let cfg := state.configCore
  let cfg := { cfg with lang := some state.lang }
  let cfg :=
    match state.settingsUnits with
    | some units =>
        if units ≠ "" ∧ units ≠ "default" then { cfg with systemUnit := units }
        else cfg
    | none => cfg
  let cfg :=
    match msgLatLon with
    | some (latitude, longitude) =>
        if latitude ≠ 0 ∧ longitude ≠ 0 then
          { cfg with latitude := latitude, longitude := longitude }
        else cfg
    | none => cfg
  ({ state with configCore := cfg }, ⟨cfg, none⟩)

/-- The per-request unit override of `_get_intent_data`
(`src/__init__.py` lines 960-971): with a truthy unit slot, a "fahrenheit"
vocabulary match sets the request `WeatherConfig`'s settings unit to
imperial, a "celsius" match to metric; the skill state is not written. -/
def applyUnitOverride (state : SkillState) (wc : WeatherConfig)
    (unitSlot : Option String) (fahrenheitMatch celsiusMatch : Bool) :
    SkillState × WeatherConfig :=
  match unitSlot with
  | some _ =>
      if fahrenheitMatch then
        (state, { wc with settingsUnits := some "imperial" })
      else if celsiusMatch then
        (state, { wc with settingsUnits := some "metric" })
      else (state, wc)
  | none => (state, wc)

end WeatherSkill

namespace WeatherSkill

/-- C1: for every parsed utterance, the timeframe of the resulting query
descriptor follows the spec's resolution order: relative-time vocabulary →
hourly; else "later" vocabulary → hourly; else relative-day vocabulary
without "today" vocabulary → daily; otherwise it stays current — in
particular an utterance matching both relative-day and "today" resolves to
current. -/
theorem timeframe_resolution_order :
    ∀ relativeTime later relativeDay today : Bool,
      resolveTimeframe relativeTime later relativeDay today initialTimeframe =
        specTimeframe relativeTime later relativeDay today := by
  decide

/-- C10: in the N-day forecast handler, a "couple" match yields 2 days, a
"few" match (without "couple") yields 3 days, and otherwise the day count is
the number extracted from the utterance. -/
theorem number_days_forecast_day_count (coupleMatch fewMatch : Bool)
    (extractedNumber : Int) :
    (coupleMatch = true →
        numberDaysForecastDays coupleMatch fewMatch extractedNumber = 2) ∧
    (coupleMatch = false → fewMatch = true →
        numberDaysForecastDays coupleMatch fewMatch extractedNumber = 3) ∧
    (coupleMatch = false → fewMatch = false →
        numberDaysForecastDays coupleMatch fewMatch extractedNumber =
          extractedNumber) := by
  refine ⟨fun hc => ?_, fun hc hf => ?_, fun hc hf => ?_⟩
  · simp [numberDaysForecastDays, hc]
  · simp [numberDaysForecastDays, hc, hf]
  · simp [numberDaysForecastDays, hc, hf]

/-- Witness for C10: the three branches evaluated at concrete inputs. -/
theorem number_days_forecast_day_count_witness :
    numberDaysForecastDays true false 5 = 2 ∧
    numberDaysForecastDays false true 5 = 3 ∧
    numberDaysForecastDays false false 5 = 5 :=
  ⟨(number_days_forecast_day_count true false 5).1 rfl,
    (number_days_forecast_day_count false true 5).2.1 rfl rfl,
    (number_days_forecast_day_count false false 5).2.2 rfl rfl⟩

/-- C2: for every multi-day forecast request with day count greater than 7
over a successfully fetched report (whose daily sequence holds the full
seven-day window), the handler speaks the `seven-days-available` notice
exactly once and then reports exactly a 7-day forecast sequence: the
effects are the notice, the display update, then exactly seven daily
forecast dialogs. -/
theorem multi_day_forecast_over_seven (report : WeatherReport) (days : Nat)
    (hdays : 7 < days) (hlen : 7 ≤ report.daily.length) :
    reportMultiDayForecast report days =
      Effect.speakDialog "seven-days-available" false ::
        Effect.showDisplay "DailyForecast.qml" ::
        List.replicate 7 (Effect.speakDialog "daily-weather" true) := by
  have hmin : 7 ⊓ report.daily.length = 7 := Nat.min_eq_left hlen
  simp only [reportMultiDayForecast, getForecastForMultipleDays,
    if_pos hdays]
  simp [Except.toOption, List.map_const', hmin, List.replicate_succ]

/-- Witness for C2: an 8-day request over a report with seven daily
snapshots. -/
theorem multi_day_forecast_over_seven_witness :
    reportMultiDayForecast
        ⟨⟨"Clear", 20⟩, [], List.replicate 7 ⟨"Clear", 20⟩⟩ 8 =
      Effect.speakDialog "seven-days-available" false ::
        Effect.showDisplay "DailyForecast.qml" ::
        List.replicate 7 (Effect.speakDialog "daily-weather" true) :=
  multi_day_forecast_over_seven
    ⟨⟨"Clear", 20⟩, [], List.replicate 7 ⟨"Clear", 20⟩⟩ 8
    (by decide) (by decide)

/-- C3: for every one-hour forecast request whose relative-hour offset
exceeds the 48-hour window, over a successfully fetched report, no snapshot
is returned (the hour lookup fails) and the only effect is the
`forty-eight-hours-available` notice, spoken exactly once — no weather
dialog. -/
theorem one_hour_forecast_out_of_range (report : WeatherReport)
    (hourOffset : Nat) (h : 48 < hourOffset) :
    getForecastForHour report.hourly hourOffset = Except.error () ∧
    reportOneHourWeather report hourOffset =
      [Effect.speakDialog "forty-eight-hours-available" false] := by
  have hfail : getForecastForHour report.hourly hourOffset =
      Except.error () := by
    simp [getForecastForHour, if_pos h]
  exact ⟨hfail, by simp [reportOneHourWeather, hfail]⟩

/-- Witness for C3: a 49-hour offset over a report with 48 hourly
snapshots. -/
theorem one_hour_forecast_out_of_range_witness :
    getForecastForHour
        (WeatherReport.hourly
          ⟨⟨"Rain", 10⟩, List.replicate 48 ⟨"Rain", 10⟩, []⟩) 49 =
      Except.error () ∧
    reportOneHourWeather ⟨⟨"Rain", 10⟩, List.replicate 48 ⟨"Rain", 10⟩, []⟩ 49 =
      [Effect.speakDialog "forty-eight-hours-available" false] :=
  one_hour_forecast_out_of_range
    ⟨⟨"Rain", 10⟩, List.replicate 48 ⟨"Rain", 10⟩, []⟩ 49 (by decide)

/-- C4: when the provider fetch fails with an `HTTPError` of status 401 the
skill emits the `mycroft.not.paired` re-pairing signal on the message bus
and speaks nothing; for any other status it speaks the generic
`cant-get-forecast` fallback and emits nothing on the bus. -/
theorem http_error_dispatch (statusCode : Nat) :
    (statusCode = 401 →
      getWeather (FetchResult.httpError statusCode) =
        (none, [Effect.emitBus "mycroft.not.paired"])) ∧
    (statusCode ≠ 401 →
      getWeather (FetchResult.httpError statusCode) =
        (none, [Effect.speakDialog "cant-get-forecast" false])) := by
  constructor
  · intro h
    simp [getWeather, handleApiError, h]
  · intro h
    simp [getWeather, handleApiError, h]

/-- Witness for C4: the two branches at status codes 401 and 500. -/
theorem http_error_dispatch_witness :
    getWeather (FetchResult.httpError 401) =
      (none, [Effect.emitBus "mycroft.not.paired"]) ∧
    getWeather (FetchResult.httpError 500) =
      (none, [Effect.speakDialog "cant-get-forecast" false]) :=
  ⟨(http_error_dispatch 401).1 rfl, (http_error_dispatch 500).2 (by decide)⟩

/-- A counterexample to C5 as stated: on the homescreen weather-request
API path a failing provider fetch (here an HTTP 500 error) is swallowed
with only a log entry — the request fails (`None` is returned) yet the
effect list is empty, so no fallback is spoken and no signal reaches the
user or the bus. -/
theorem homescreen_silent_failure :
    (getCurrentWeatherHomescreen (FetchResult.httpError 500)).1 = none ∧
    (getCurrentWeatherHomescreen (FetchResult.httpError 500)).2 = [] ∧
    ((getCurrentWeatherHomescreen (FetchResult.httpError 500)).2.filter
        isUserVisibleSignal) = [] :=
  ⟨rfl, rfl, rfl⟩

/-- C5 as amended: every failure of an intent-handler request produces
exactly one effect, that effect is a user-visible signal (a spoken
fallback or the re-pairing bus message), and any spoken dialog is a
fallback phrase, never a weather dialog; the homescreen API path, however,
swallows every fetch failure silently, returning no report and producing
no effect at all. -/
theorem failure_paths_amended :
    (∀ failure : RequestFailure,
      (∀ report, failure ≠ RequestFailure.fetchFailure (FetchResult.ok report)) →
        (intentHandlerFailureEffects failure).length = 1 ∧
        (∀ e ∈ intentHandlerFailureEffects failure,
            isUserVisibleSignal e = true) ∧
        (∀ name wait,
            Effect.speakDialog name wait ∈ intentHandlerFailureEffects failure →
              name = "cant-get-forecast" ∨ name = "location-not-found")) ∧
    (∀ fetch : FetchResult,
      (∀ report, fetch ≠ FetchResult.ok report) →
        getCurrentWeatherHomescreen fetch = (none, [])) := by
  constructor
  · intro failure hnotok
    match failure with
    | RequestFailure.malformedQuery =>
        refine ⟨rfl, ?_, ?_⟩
        · intro e he
          simp [intentHandlerFailureEffects] at he
          simp [he, isUserVisibleSignal]
        · intro name wait hmem
          simp [intentHandlerFailureEffects] at hmem
          exact Or.inl hmem.1
    | RequestFailure.fetchFailure fetch =>
        match fetch with
        | FetchResult.ok report => exact absurd rfl (hnotok report)
        | FetchResult.httpError statusCode =>
            by_cases h401 : statusCode = 401
            · refine ⟨?_, ?_, ?_⟩
              · simp [intentHandlerFailureEffects, getWeather, handleApiError,
                  h401]
              · intro e he
                simp [intentHandlerFailureEffects, getWeather, handleApiError,
                  h401] at he
                simp [he, isUserVisibleSignal]
              · intro name wait hmem
                simp [intentHandlerFailureEffects, getWeather, handleApiError,
                  h401] at hmem
            · refine ⟨?_, ?_, ?_⟩
              · simp [intentHandlerFailureEffects, getWeather, handleApiError,
                  h401]
              · intro e he
                simp [intentHandlerFailureEffects, getWeather, handleApiError,
                  h401] at he
                simp [he, isUserVisibleSignal]
              · intro name wait hmem
                simp [intentHandlerFailureEffects, getWeather, handleApiError,
                  h401] at hmem
                exact Or.inl hmem.1
        | FetchResult.locationNotFound =>
            refine ⟨rfl, ?_, ?_⟩
            · intro e he
              simp [intentHandlerFailureEffects, getWeather] at he
              simp [he, isUserVisibleSignal]
            · intro name wait hmem
              simp [intentHandlerFailureEffects, getWeather] at hmem
              exact Or.inr hmem.1
        | FetchResult.otherError =>
            refine ⟨rfl, ?_, ?_⟩
            · intro e he
              simp [intentHandlerFailureEffects, getWeather] at he
              simp [he, isUserVisibleSignal]
            · intro name wait hmem
              simp [intentHandlerFailureEffects, getWeather] at hmem
              exact Or.inl hmem.1
  · intro fetch hnotok
    match fetch with
    | FetchResult.ok report => exact absurd rfl (hnotok report)
    | FetchResult.httpError statusCode => rfl
    | FetchResult.locationNotFound => rfl
    | FetchResult.otherError => rfl

/-- Witness for the amended C5: a location-not-found failure on the intent
path and an HTTP 500 failure on the homescreen path. -/
theorem failure_paths_amended_witness :
    ((intentHandlerFailureEffects
        (RequestFailure.fetchFailure FetchResult.locationNotFound)).length = 1 ∧
      (∀ e ∈ intentHandlerFailureEffects
          (RequestFailure.fetchFailure FetchResult.locationNotFound),
          isUserVisibleSignal e = true) ∧
      (∀ name wait,
          Effect.speakDialog name wait ∈ intentHandlerFailureEffects
            (RequestFailure.fetchFailure FetchResult.locationNotFound) →
            name = "cant-get-forecast" ∨ name = "location-not-found")) ∧
    getCurrentWeatherHomescreen (FetchResult.httpError 500) = (none, []) :=
  ⟨failure_paths_amended.1 (RequestFailure.fetchFailure FetchResult.locationNotFound)
      (by simp),
    failure_paths_amended.2 (FetchResult.httpError 500) (by simp)⟩

theorem mem_dedupFirstAux (a : String) :
    ∀ (l seen : List String), a ∈ dedupFirstAux seen l ↔ a ∈ l ∧ a ∉ seen := by
  intro l
  induction l with
  | nil => intro seen; simp [dedupFirstAux]
  | cons c rest ih =>
      intro seen
      by_cases hc : c ∈ seen
      · rw [show dedupFirstAux seen (c :: rest) = dedupFirstAux seen rest from
          by simp [dedupFirstAux, hc]]
        rw [ih seen]
        simp only [List.mem_cons]
        constructor
        · rintro ⟨h1, h2⟩
          exact ⟨Or.inr h1, h2⟩
        · rintro ⟨h1 | h1, h2⟩
          · exact absurd (h1 ▸ hc) h2
          · exact ⟨h1, h2⟩
      · rw [show dedupFirstAux seen (c :: rest) =
            c :: dedupFirstAux (c :: seen) rest from by simp [dedupFirstAux, hc]]
        simp only [List.mem_cons, ih (c :: seen)]
        constructor
        · rintro (h1 | ⟨h1, h2⟩)
          · exact ⟨Or.inl h1, h1 ▸ hc⟩
          · exact ⟨Or.inr h1, fun hmem => h2 (Or.inr hmem)⟩
        · rintro ⟨h1 | h1, h2⟩
          · exact Or.inl h1
          · by_cases hac : a = c
            · exact Or.inl hac
            · refine Or.inr ⟨h1, ?_⟩
              rintro (h | h)
              · exact hac h
              · exact h2 h

theorem nodup_dedupFirstAux :
    ∀ (l seen : List String), (dedupFirstAux seen l).Nodup := by
  intro l
  induction l with
  | nil => intro seen; simp [dedupFirstAux]
  | cons c rest ih =>
      intro seen
      by_cases hc : c ∈ seen
      · rw [show dedupFirstAux seen (c :: rest) = dedupFirstAux seen rest from
          by simp [dedupFirstAux, hc]]
        exact ih seen
      · rw [show dedupFirstAux seen (c :: rest) =
            c :: dedupFirstAux (c :: seen) rest from by simp [dedupFirstAux, hc]]
        rw [List.nodup_cons]
        refine ⟨?_, ih (c :: seen)⟩
        intro hmem
        exact ((mem_dedupFirstAux c rest (c :: seen)).mp hmem).2
          (List.mem_cons_self c seen)

theorem mem_dedupFirst (a : String) (l : List String) :
    a ∈ dedupFirst l ↔ a ∈ l := by
  rw [dedupFirst, mem_dedupFirstAux]
  simp

theorem nodup_dedupFirst (l : List String) : (dedupFirst l).Nodup :=
  nodup_dedupFirstAux l []

/-- C6: for every week-summary forecast sequence and every admissible
iteration order of the Python set of its condition categories, the built
condition dialogs carry pairwise distinct condition categories — no two
dialogs of one response share a category. -/
theorem weekly_condition_dialogs_distinct (forecast : List Weather)
    (setOrder : List String)
    (h : IsSetIteration setOrder (forecast.map Weather.category)) :
    ((buildWeeklyConditionDialogs forecast setOrder).map
        WeeklyConditionDialog.condition).Nodup := by
  have hmap : (buildWeeklyConditionDialogs forecast setOrder).map
      WeeklyConditionDialog.condition = setOrder := by
    rw [buildWeeklyConditionDialogs, List.map_map]
    exact List.map_id setOrder
  rw [hmap]
  exact h.1

/-- Witness for C6: a three-day forecast with a repeated category, under a
set order listing the two distinct categories. -/
theorem weekly_condition_dialogs_distinct_witness :
    ((buildWeeklyConditionDialogs
        [⟨"Clear", 1⟩, ⟨"Rain", 2⟩, ⟨"Clear", 3⟩]
        ["Rain", "Clear"]).map WeeklyConditionDialog.condition).Nodup :=
  weekly_condition_dialogs_distinct
    [⟨"Clear", 1⟩, ⟨"Rain", 2⟩, ⟨"Clear", 3⟩] ["Rain", "Clear"]
    (by refine ⟨by decide, ?_, ?_⟩ <;> decide)

/-- A counterexample to C7 as stated: for the two-day forecast with
categories Clear then Rain, the order ["Rain", "Clear"] is an admissible
iteration order of the Python set of categories, yet the dialogs built in
that order do not follow the first-occurrence order (Clear before
Rain) — the code's set iteration does not guarantee first-occurrence
ordering. -/
theorem weekly_condition_dialogs_order_counterexample :
    IsSetIteration ["Rain", "Clear"]
        (([⟨"Clear", 1⟩, ⟨"Rain", 2⟩] : List Weather).map Weather.category) ∧
    buildWeeklyConditionDialogs [⟨"Clear", 1⟩, ⟨"Rain", 2⟩] ["Rain", "Clear"] ≠
      (firstOccurrenceCategories [⟨"Clear", 1⟩, ⟨"Rain", 2⟩]).map
        (fun condition => ⟨"weekly-condition", condition⟩) := by
  constructor
  · refine ⟨by decide, ?_, ?_⟩ <;> decide
  · decide

/-- C7 as amended: for every week-summary forecast sequence and every
admissible iteration order of the Python set of its condition categories,
the condition dialogs carry exactly the distinct categories of the
sequence — a permutation of the first-occurrence-ordered distinct
categories — but in the unspecified set-iteration order rather than
necessarily the order of first occurrence. -/
theorem weekly_condition_dialogs_perm (forecast : List Weather)
    (setOrder : List String)
    (h : IsSetIteration setOrder (forecast.map Weather.category)) :
    ((buildWeeklyConditionDialogs forecast setOrder).map
        WeeklyConditionDialog.condition).Perm
      (firstOccurrenceCategories forecast) := by
  have hmap : (buildWeeklyConditionDialogs forecast setOrder).map
      WeeklyConditionDialog.condition = setOrder := by
    rw [buildWeeklyConditionDialogs, List.map_map]
    exact List.map_id setOrder
  rw [hmap, firstOccurrenceCategories,
    List.perm_ext_iff_of_nodup h.1 (nodup_dedupFirst _)]
  intro a
  rw [mem_dedupFirst]
  exact ⟨fun ha => h.2.1 a ha, fun ha => h.2.2 a ha⟩

/-- Witness for the amended C7: the counterexample's forecast and set
order; the dialog categories are a permutation of the first-occurrence
order. -/
theorem weekly_condition_dialogs_perm_witness :
    ((buildWeeklyConditionDialogs [⟨"Clear", 1⟩, ⟨"Rain", 2⟩]
        ["Rain", "Clear"]).map WeeklyConditionDialog.condition).Perm
      (firstOccurrenceCategories [⟨"Clear", 1⟩, ⟨"Rain", 2⟩]) :=
  weekly_condition_dialogs_perm [⟨"Clear", 1⟩, ⟨"Rain", 2⟩] ["Rain", "Clear"]
    (by refine ⟨by decide, ?_, ?_⟩ <;> decide)

/-- C8: for every successful current-weather request, exactly two dialogs
are spoken, in order: first the current-conditions dialog, then the
high/low-temperature dialog, each with `wait=True` so the speech call
blocks until it finishes before the next is issued — on either kind of
device (GUI connected or not). -/
theorem current_weather_speaks_two_dialogs_in_order :
    ∀ (guiConnected : Bool) (report : WeatherReport),
      (reportCurrentWeather guiConnected (FetchResult.ok report)).filter
          isSpeak =
        [Effect.speakDialog "current-weather" true,
          Effect.speakDialog "current-weather-high-low" true] := by
  intro guiConnected report
  cases guiConnected <;> rfl

/-- A counterexample to C9 as stated: resolving the effective
configuration is not free of side effects on the stored configuration —
`cfg = self.config_core` binds the stored mapping itself, so with a stored
"metric" system unit, an "imperial" skill-settings preference and request
language "en-us", the call rewrites the stored configuration's language
and system unit in place, leaving the skill state changed. -/
theorem weather_config_mutates_stored_config :
    (getWeatherConfig ⟨⟨none, "metric", 0, 0⟩, some "imperial", "en-us"⟩
        none).1 ≠
      ⟨⟨none, "metric", 0, 0⟩, some "imperial", "en-us"⟩ := by
  decide

/-- C9 as amended: resolving the effective configuration performs no
network or I/O and leaves the skill settings and request language
untouched, and the per-request "fahrenheit"/"celsius" unit override is
written only to the request's `WeatherConfig`, never to the skill state —
but the merge writes through to the stored system-wide configuration,
which afterwards equals the merged effective configuration rather than its
previous value. -/
theorem weather_config_merge_amended (state : SkillState)
    (msgLatLon : Option (Int × Int)) (unitSlot : Option String)
    (fahrenheitMatch celsiusMatch : Bool) :
    (getWeatherConfig state msgLatLon).1.settingsUnits = state.settingsUnits ∧
    (getWeatherConfig state msgLatLon).1.lang = state.lang ∧
    (getWeatherConfig state msgLatLon).1.configCore =
      (getWeatherConfig state msgLatLon).2.config ∧
    (applyUnitOverride (getWeatherConfig state msgLatLon).1
        (getWeatherConfig state msgLatLon).2 unitSlot fahrenheitMatch
        celsiusMatch).1 =
      (getWeatherConfig state msgLatLon).1 := by
  refine ⟨rfl, rfl, rfl, ?_⟩
  cases unitSlot with
  | none => rfl
  | some u => cases fahrenheitMatch <;> cases celsiusMatch <;> rfl

end WeatherSkill
